import Mathlib

/-!
Verification of the exponential-family prior module (`beer/expfamilyprior.py`).

Modelling conventions (shallow embedding):

* A flat torch tensor is a `List ℝ`; a square matrix is a Mathlib `Matrix`.
* Python runtime failures that the analysed code can hit (AttributeError,
  TypeError from calling a non-callable, reshape-size errors, unpacking
  errors) are made explicit: fallible operations return `Option` / `Except`.
* PyTorch library calls are translated by their documented semantics:
  `torch.cat` is list append, `Tensor.view` is a checked reshape,
  `torch.potrf` is the Cholesky factor (modelled by its contract:
  an upper-triangular factor `u` with positive diagonal and `uᵀ * u = mat`),
  and `torch.autograd.backward` populates `value.grad` with the gradient
  of the back-propagated scalar, here an explicit function argument.
* Attribute lookup on an `ExpFamilyPrior` instance is modelled by an
  explicit `getattr` over the attribute names the KL utility touches,
  returning `none` exactly for names the class does not define.
-/

/- ------------------------------------------------------------------ -/
/- Basic tensor operations                                            -/
/- ------------------------------------------------------------------ -/

/-- Inner product `a @ b` of two flat tensors. -/
def dotList (a b : List ℝ) : ℝ :=
  (List.zipWith (fun x y => x * y) a b).sum

/-- Elementwise difference `a - b` of two flat tensors. -/
def subList (a b : List ℝ) : List ℝ :=
  List.zipWith (fun x y => x - y) a b

/-- Source `_bregman_divergence(f_val1, f_val2, grad_f_val2, val1, val2)`
(expfamilyprior.py lines 11-12):
`f_val1 - f_val2 - grad_f_val2 @ (val1 - val2)`. -/
def _bregman_divergence (f_val1 f_val2 : ℝ) (grad_f_val2 val1 val2 : List ℝ) : ℝ :=
  f_val1 - f_val2 - dotList grad_f_val2 (subList val1 val2)

/- ------------------------------------------------------------------ -/
/- The kl_div utility (source lines 520-527)                          -/
/- ------------------------------------------------------------------ -/

/-- A Python value as seen by `kl_div`: either a tensor or a bound method
(the un-called `model.log_norm`). -/
inductive PyValue where
  | tensor (t : List ℝ) : PyValue
  | method (f : List ℝ → ℝ) : PyValue

/-- The attribute names accessed by `kl_div` on its two arguments. -/
inductive Attr where
  | log_norm : Attr
  | natural_hparams : Attr
  | expected_sufficient_statistics : Attr
  | natural_params : Attr

/-- State exposed by a constructed `ExpFamilyPrior` instance: the abstract
base class defines the method `log_norm` and the read-only properties
`natural_hparams` and `expected_sufficient_statistics` (source lines 80-103). -/
structure PriorObj where
  log_norm : List ℝ → ℝ
  natural_hparams : List ℝ
  expected_sufficient_statistics : List ℝ

/-- Python attribute lookup on an `ExpFamilyPrior` instance.  The class
defines `log_norm`, `natural_hparams` and `expected_sufficient_statistics`;
there is no attribute named `natural_params`, so looking it up raises
AttributeError, modelled as `none`. -/
def PriorObj.getattr (m : PriorObj) : Attr → Option PyValue
  | .log_norm => some (.method m.log_norm)
  | .natural_hparams => some (.tensor m.natural_hparams)
  | .expected_sufficient_statistics => some (.tensor m.expected_sufficient_statistics)
  | .natural_params => none

/-- The body of `_bregman_divergence` applied to the looked-up Python values.
It only produces a number when the first two arguments are scalar tensors;
passing bound methods (as `kl_div` does) is a TypeError, modelled as `none`. -/
def bregmanOnValues : PyValue → PyValue → PyValue → PyValue → PyValue → Option ℝ
  | .tensor [a], .tensor [b], .tensor g, .tensor v1, .tensor v2 =>
      some (_bregman_divergence a b g v1 v2)
  | _, _, _, _, _ => none

/-- Source `kl_div(model1, model2)` (expfamilyprior.py lines 520-527):
`_bregman_divergence(model2.log_norm, model1.log_norm,
model1.expected_sufficient_statistics, model2.natural_params,
model1.natural_params)`.  Arguments are evaluated by attribute lookup;
a missing attribute aborts the call. -/
def kl_div (model1 model2 : PriorObj) : Option ℝ :=
  match model2.getattr .log_norm, model1.getattr .log_norm,
        model1.getattr .expected_sufficient_statistics,
        model2.getattr .natural_params, model1.getattr .natural_params with
  | some a, some b, some c, some d, some e => bregmanOnValues a b c d e
  | _, _, _, _, _ => none

/- ------------------------------------------------------------------ -/
/- The natural_hparams setter (source lines 96-103)                   -/
/- ------------------------------------------------------------------ -/

/-- Python runtime errors relevant to this module. -/
inductive PyErr where
  | typeError : PyErr
  | runtimeError : PyErr

/-- A torch tensor together with its accumulated-gradient buffer
(`None` when no gradient has ever been accumulated). -/
structure TensorWithGrad where
  data : List ℝ
  grad : Option (List ℝ)

/-- Observable state of an `ExpFamilyPrior` after a successful parameter
assignment: the stored vector and the stored gradient. -/
structure PriorState where
  natural_hparams : List ℝ
  expected_sufficient_statistics : List ℝ

/-- In-place `Tensor.zero_()`: overwrites every entry of the buffer with
zero, keeping the same tensor object, so every alias to that buffer now
reads zeros. -/
def zero_inplace (g : List ℝ) : List ℝ :=
  g.map (fun _ => 0)

/-- Source setter `natural_hparams` (expfamilyprior.py lines 96-103),
with its side effect on the assigned tensor made explicit.  The result
is the pair (state of `value` after the call, outcome):

* if `value.grad is not None` the code runs `value.grad.zero_()()`: the
  inner `zero_()` first zeroes the gradient buffer IN PLACE — mutating
  the tensor and every alias to its buffer — and then the second call
  applies the returned tensor, raising `TypeError: 'Tensor' object is
  not callable`, so the two stores never execute;
* otherwise it evaluates `log_norm(value)`, back-propagates it
  (populating `value.grad` with the gradient of `log_norm` at `value`,
  here supplied as the function `grad_log_norm`) and stores
  `value.grad` / `value` in the object's two fields. -/
def natural_hparams_set_full (grad_log_norm : List ℝ → List ℝ) (value : TensorWithGrad) :
    TensorWithGrad × Except PyErr PriorState :=
  match value.grad with
  | some g => (⟨value.data, some (zero_inplace g)⟩, .error .typeError)
  | none =>
      (⟨value.data, some (grad_log_norm value.data)⟩,
        .ok ⟨value.data, grad_log_norm value.data⟩)

/-- The outcome of an assignment to `natural_hparams`: the raised
exception or the stored state (the assigned tensor's own mutation is in
`natural_hparams_set_full`). -/
def natural_hparams_set (grad_log_norm : List ℝ → List ℝ) (value : TensorWithGrad) :
    Except PyErr PriorState :=
  (natural_hparams_set_full grad_log_norm value).2

/-- One assignment to `natural_hparams`: either of the very tensor the
object already stores (`p.natural_hparams = p._natural_hparams`, an
alias of the stored tensor and of its gradient buffer) or of some other
tensor object. -/
inductive Update where
  | storedTensor : Update
  | otherTensor (v : TensorWithGrad) : Update

/-- After every successful assignment the object's
`_expected_sufficient_statistics` is `value.grad` and its
`_natural_hparams` is `value`: both alias the assigned tensor, so the
object's observable state is that tensor (its data are the exposed
natural parameters, its gradient buffer the exposed expected sufficient
statistics).  A failing assignment of another tensor zeroes that other
tensor's buffer and leaves the stored tensor untouched; a failing
assignment of the stored tensor itself zeroes the stored gradient
buffer in place before the exception propagates. -/
def applyUpdates (grad_log_norm : List ℝ → List ℝ) (stored : TensorWithGrad)
    (updates : List Update) : TensorWithGrad :=
  updates.foldl
    (fun cur u =>
      match u with
      | .storedTensor => (natural_hparams_set_full grad_log_norm cur).1
      | .otherTensor v =>
          match natural_hparams_set_full grad_log_norm v with
          | (v2, .ok _) => v2
          | (_, .error _) => cur) stored

/-- The invariant claimed by the spec: the exposed expected sufficient
statistics (the stored tensor's gradient buffer) equal the gradient of
`log_norm` at the exposed natural parameters (the stored tensor's data). -/
def consistentState (grad_log_norm : List ℝ → List ℝ) (stored : TensorWithGrad) : Prop :=
  stored.grad = some (grad_log_norm stored.data)

/- ------------------------------------------------------------------ -/
/- Claims C1, C2, C3                                                  -/
/- ------------------------------------------------------------------ -/

/-- C1: the claim states that `kl_div(model1, model2)` returns the
Bregman-identity KL divergence.  In fact the call can never return a
value: it looks up `model2.natural_params` and `model1.natural_params`,
attributes that do not exist on `ExpFamilyPrior` instances (the property
is named `natural_hparams`), so every invocation fails with
AttributeError — for every pair of constructed priors. -/
theorem kl_div_always_fails (model1 model2 : PriorObj) : kl_div model1 model2 = none := rfl

/-- C2: the claim states that assigning `natural_hparams` first zeroes any
existing accumulated gradient.  In fact, whenever the assigned vector has
a non-`None` gradient buffer, the statement `value.grad.zero_()()` calls
the tensor returned by `zero_()` and raises TypeError, for any family
(`grad_log_norm`) and any buffered gradient. -/
theorem natural_hparams_set_typeerror_on_existing_grad
    (grad_log_norm : List ℝ → List ℝ) (data g : List ℝ) :
    natural_hparams_set grad_log_norm ⟨data, some g⟩ = .error .typeError := rfl

/-- C3: the claim states that the exposed `expected_sufficient_statistics`
always equal the gradient of `log_norm` at the current natural-parameter
vector.  The code violates this at a reachable state: construction from a
fresh tensor stores the gradient, but re-assigning the stored tensor
(`p.natural_hparams = p._natural_hparams`) executes `value.grad.zero_()` —
zeroing the aliased gradient buffer in place — before the TypeError from
the extra call, leaving the exposed statistics all zero while the natural
parameters are unchanged.  Whenever the gradient at that point is
nonzero, the claimed invariant fails on the resulting state. -/
theorem expected_sufficient_statistics_invariant_violated
    (grad_log_norm : List ℝ → List ℝ) (data : List ℝ) :
    natural_hparams_set_full grad_log_norm ⟨data, none⟩ =
      (⟨data, some (grad_log_norm data)⟩, .ok ⟨data, grad_log_norm data⟩) ∧
    applyUpdates grad_log_norm ⟨data, some (grad_log_norm data)⟩ [.storedTensor] =
      ⟨data, some (zero_inplace (grad_log_norm data))⟩ ∧
    (grad_log_norm data ≠ zero_inplace (grad_log_norm data) →
      ¬ consistentState grad_log_norm
          (applyUpdates grad_log_norm ⟨data, some (grad_log_norm data)⟩
            [.storedTensor])) := by
  refine ⟨rfl, rfl, fun hne hcons => hne ?_⟩
  have h2 : some (zero_inplace (grad_log_norm data)) = some (grad_log_norm data) := hcons
  exact (Option.some.inj h2).symm

/-- Witness for C3: with gradient function `fun l => l.map (fun x => x + 1)`
and stored naturals `[1, 2]` the gradient `[2, 3]` is nonzero, and after
the failing re-assignment of the stored tensor the invariant is broken:
the stored buffer reads `[0, 0]`. -/
theorem expected_sufficient_statistics_invariant_violated_witness :
    (fun l => l.map (fun x => x + (1:ℝ))) [1, 2] ≠
      zero_inplace ((fun l => l.map (fun x => x + (1:ℝ))) [1, 2]) ∧
    ¬ consistentState (fun l => l.map (fun x => x + (1:ℝ)))
        (applyUpdates (fun l => l.map (fun x => x + (1:ℝ)))
          ⟨[1, 2], some ((fun l => l.map (fun x => x + (1:ℝ))) [1, 2])⟩
          [.storedTensor]) :=
  ⟨by norm_num [zero_inplace],
    (expected_sufficient_statistics_invariant_violated
      (fun l => l.map (fun x => x + (1:ℝ))) [1, 2]).2.2
      (by norm_num [zero_inplace])⟩

/- ------------------------------------------------------------------ -/
/- Dirichlet prior (source lines 145-193)                             -/
/- ------------------------------------------------------------------ -/

/-- torch.lgamma: the log of the absolute value of the Gamma function. -/
noncomputable def lgamma (x : ℝ) : ℝ := Real.log |Real.Gamma x|

/-- Source `DirichletPrior.__init__` (lines 157-164): the natural
hyper-parameters are `concentrations - 1`, elementwise. -/
def DirichletPrior.natural_hparams (concentrations : List ℝ) : List ℝ :=
  concentrations.map (fun c => c - 1)

/-- Source `DirichletPrior.log_norm` (lines 181-193):
`- lgamma((natural_hparams + 1).sum()) + lgamma(natural_hparams + 1).sum()`. -/
noncomputable def DirichletPrior.log_norm (natural_hparams : List ℝ) : ℝ :=
  - lgamma ((natural_hparams.map (fun x => x + 1)).sum) +
    (natural_hparams.map (fun x => lgamma (x + 1))).sum

/-- For a positive argument `lgamma` is the log of the Gamma function of a
natural-number successor, i.e. the log of a factorial. -/
theorem lgamma_cast_succ (n : ℕ) : lgamma ((n : ℝ) + 1) = Real.log (n.factorial) := by
  rw [lgamma, Real.Gamma_nat_eq_factorial,
    abs_of_pos (by positivity : (0:ℝ) < n.factorial)]

/- ------------------------------------------------------------------ -/
/- Claim C4                                                           -/
/- ------------------------------------------------------------------ -/

/-- C4, counterexample: for concentrations `[2, 3, 5]` the value of the
Dirichlet `log_norm` at the constructed natural parameters is NOT
`lgamma 8 - lgamma 2 - lgamma 3 - lgamma 5` as the claim states — the
code computes `-lgamma(10) + lgamma 2 + lgamma 3 + lgamma 5`, which is
negative, while the claimed value is positive. -/
theorem dirichlet_scenario_log_norm_ne_spec :
    DirichletPrior.log_norm (DirichletPrior.natural_hparams [2, 3, 5]) ≠
      lgamma 8 - lgamma 2 - lgamma 3 - lgamma 5 := by
  have h1 : lgamma 2 = Real.log (Nat.factorial 1) := by
    have := lgamma_cast_succ 1
    norm_num at this
    convert this using 2
    norm_num
  have h2 : lgamma 3 = Real.log (Nat.factorial 2) := by
    have := lgamma_cast_succ 2
    convert this using 2
    norm_num
  have h4 : lgamma 5 = Real.log (Nat.factorial 4) := by
    have := lgamma_cast_succ 4
    convert this using 2
    norm_num
  have h7 : lgamma 8 = Real.log (Nat.factorial 7) := by
    have := lgamma_cast_succ 7
    convert this using 2
    norm_num
  have h9 : lgamma 10 = Real.log (Nat.factorial 9) := by
    have := lgamma_cast_succ 9
    convert this using 2
    norm_num
  have hval : DirichletPrior.log_norm (DirichletPrior.natural_hparams [2, 3, 5]) =
      lgamma 2 + lgamma 3 + lgamma 5 - lgamma 10 := by
    simp only [DirichletPrior.natural_hparams, DirichletPrior.log_norm, List.map_cons,
      List.map_nil, List.sum_cons, List.sum_nil]
    norm_num
    ring
  rw [hval, h1, h2, h4, h7, h9]
  have hf1 : (Nat.factorial 1 : ℝ) = 1 := by norm_num [Nat.factorial]
  have hf2 : (Nat.factorial 2 : ℝ) = 2 := by norm_num [Nat.factorial]
  have hf4 : (Nat.factorial 4 : ℝ) = 24 := by norm_num [Nat.factorial]
  have hf7 : (Nat.factorial 7 : ℝ) = 5040 := by norm_num [Nat.factorial]
  have hf9 : (Nat.factorial 9 : ℝ) = 362880 := by norm_num [Nat.factorial]
  rw [hf1, hf2, hf4, hf7, hf9, Real.log_one]
  have hmul : Real.log 2 + Real.log 24 = Real.log 48 := by
    rw [← Real.log_mul (by norm_num) (by norm_num)]
    norm_num
  have hneg : (0:ℝ) + Real.log 2 + Real.log 24 - Real.log 362880 < 0 := by
    have : Real.log 48 < Real.log 362880 := Real.log_lt_log (by norm_num) (by norm_num)
    linarith [hmul]
  have hpos : (0:ℝ) < Real.log 5040 - 0 - Real.log 2 - Real.log 24 := by
    have : Real.log 48 < Real.log 5040 := Real.log_lt_log (by norm_num) (by norm_num)
    linarith [hmul]
  intro heq
  rw [heq] at hneg
  linarith

/-- C4, amended: for concentrations `[2, 3, 5]` the natural parameters are
`[1, 2, 4]` (natural = concentration - 1) and `log_norm` at those natural
parameters equals `lgamma 2 + lgamma 3 + lgamma 5 - lgamma 10`: the code
computes `-lgamma(sum of (naturals + 1)) + sum of lgamma(naturals + 1)`,
and the sum of the concentrations is 10, not 8. -/
theorem dirichlet_scenario_amended :
    DirichletPrior.natural_hparams [2, 3, 5] = [1, 2, 4] ∧
    DirichletPrior.log_norm (DirichletPrior.natural_hparams [2, 3, 5]) =
      lgamma 2 + lgamma 3 + lgamma 5 - lgamma 10 := by
  constructor
  · simp only [DirichletPrior.natural_hparams, List.map_cons, List.map_nil]
    norm_num
  · simp only [DirichletPrior.natural_hparams, DirichletPrior.log_norm, List.map_cons,
      List.map_nil, List.sum_cons, List.sum_nil]
    norm_num
    ring

/- ------------------------------------------------------------------ -/
/- Normal-Gamma prior (source lines 196-270)                          -/
/- ------------------------------------------------------------------ -/

/-- Source `NormalGammaPrior.__init__` (lines 225-240): the natural
hyper-parameters are the concatenation of the four elementwise groups
`scale * mean^2 + 2 * rate`, `scale * mean`, `scale`, `2 * shape - 1`. -/
def NormalGammaPrior.natural_hparams (mean scale shape rate : List ℝ) : List ℝ :=
  (List.zipWith (fun x y => x + y)
      (List.zipWith (fun s m => s * m ^ 2) scale mean)
      (rate.map (fun r => 2 * r))) ++
    List.zipWith (fun s m => s * m) scale mean ++
    scale ++
    shape.map (fun a => 2 * a - 1)

/-- The natural-parameter vector as the spec describes it: concatenation,
in order, of (scale·mean² + 2·rate), (scale·mean), (scale), (2·shape − 1). -/
def NormalGammaPrior.natural_hparams_spec (mean scale shape rate : List ℝ) : List ℝ :=
  (List.zipWith (fun x y => x + y)
      (List.zipWith (fun s m => s * m ^ 2) scale mean)
      (rate.map (fun r => 2 * r))) ++
    List.zipWith (fun s m => s * m) scale mean ++
    scale ++
    shape.map (fun a => 2 * a - 1)

/-- C5: for every mean, scale, shape, rate the constructed Normal-Gamma
natural-parameter vector is the concatenation in order of
(scale·mean² + 2·rate), (scale·mean), (scale), (2·shape − 1); in
particular for mean=0, scale=1, shape=1, rate=1 (1-D) it is
`[2, 0, 1, 1]`. -/
theorem normal_gamma_natural_hparams_spec :
    (∀ mean scale shape rate : List ℝ,
      NormalGammaPrior.natural_hparams mean scale shape rate =
        NormalGammaPrior.natural_hparams_spec mean scale shape rate) ∧
    NormalGammaPrior.natural_hparams [0] [1] [1] [1] = [2, 0, 1, 1] := by
  constructor
  · intro mean scale shape rate
    rfl
  · simp only [NormalGammaPrior.natural_hparams, List.zipWith, List.map_cons, List.map_nil,
      List.cons_append, List.nil_append]
    norm_num

/- ------------------------------------------------------------------ -/
/- Reshaping and the per-family sufficient-statistics splits          -/
/- ------------------------------------------------------------------ -/

/-- Row-major reshape of a flat tensor into `k` rows of `d` entries
(the semantics of a successful `Tensor.view(k, d)`). -/
def reshape : ℕ → ℕ → List ℝ → List (List ℝ)
  | 0, _, _ => []
  | k + 1, d, l => l.take d :: reshape k d (l.drop d)

/-- `Tensor.view(k, d)`: succeeds exactly when the number of elements is
`k * d`, otherwise raises a RuntimeError (invalid shape). -/
def view2 (k d : ℕ) (l : List ℝ) : Except PyErr (List (List ℝ)) :=
  if l.length = k * d then .ok (reshape k d l) else .error .runtimeError

/-- Source `DirichletPrior.split_sufficient_statistics` (lines 166-179):
the identity function, with no validation of any kind. -/
def DirichletPrior.split_sufficient_statistics (s_stats : List ℝ) : List ℝ :=
  s_stats

/-- Source `NormalGammaPrior.split_sufficient_statistics` (lines 242-253):
`tuple(s_stats.view(4, -1))`, the four rows of a `view(4, -1)` reshape
(which infers the row length and fails unless the length is a multiple
of 4). -/
def NormalGammaPrior.split_sufficient_statistics (s_stats : List ℝ) :
    Except PyErr (List (List ℝ)) :=
  if s_stats.length % 4 = 0 then .ok (reshape 4 (s_stats.length / 4) s_stats)
  else .error .runtimeError

/-- Source `JointNormalGammaPrior.split_sufficient_statistics`
(lines 311-328): slices `s[:dim]`, `s[dim : dim + dim*ncomp]` viewed as
`(ncomp, dim)`, `s[dim + dim*ncomp : dim + 2*dim*ncomp]` viewed as
`(ncomp, dim)`, and the tail `s[dim + 2*dim*ncomp:]`. -/
def JointNormalGammaPrior.split_sufficient_statistics (ncomp dim : ℕ) (s_stats : List ℝ) :
    Except PyErr (List ℝ × List (List ℝ) × List (List ℝ) × List ℝ) :=
  match view2 ncomp dim ((s_stats.drop dim).take (dim * ncomp)),
        view2 ncomp dim ((s_stats.drop (dim + dim * ncomp)).take (dim * ncomp)) with
  | .ok hnp2s, .ok hnp3s =>
      .ok (s_stats.take dim, hnp2s, hnp3s, s_stats.drop (dim + 2 * dim * ncomp))
  | .error e, _ => .error e
  | .ok _, .error e => .error e

/-- Source `NormalWishartPrior.split_sufficient_statistics`
(lines 395-409): `s[:dim^2].view(dim, dim)`, `s[dim^2:-2]`, and the two
scalars unpacked from `s[-2:]` (an unpacking error unless that slice has
exactly two elements). -/
def NormalWishartPrior.split_sufficient_statistics (dim : ℕ) (s_stats : List ℝ) :
    Except PyErr (List (List ℝ) × List ℝ × ℝ × ℝ) :=
  match view2 dim dim (s_stats.take (dim ^ 2)), s_stats.drop (s_stats.length - 2) with
  | .ok grp1, [c3, c4] =>
      .ok (grp1, (s_stats.drop (dim ^ 2)).take (s_stats.length - 2 - dim ^ 2), c3, c4)
  | .error e, _ => .error e
  | .ok _, _ => .error .runtimeError

/-- Source `JointNormalWishartPrior.split_sufficient_statistics`
(lines 474-490): `s[:dim^2].view(dim, dim)`,
`s[dim^2:-(ncomp+1)].view(ncomp, dim)`, the slice `s[-(ncomp+1):-1]`,
and the final scalar `s[-1]` (an IndexError on an empty tensor). -/
def JointNormalWishartPrior.split_sufficient_statistics (ncomp dim : ℕ) (s_stats : List ℝ) :
    Except PyErr (List (List ℝ) × List (List ℝ) × List ℝ × ℝ) :=
  match view2 dim dim (s_stats.take (dim ^ 2)),
        view2 ncomp dim
          ((s_stats.drop (dim ^ 2)).take (s_stats.length - (ncomp + 1) - dim ^ 2)),
        s_stats.getLast? with
  | .ok grp1, .ok grp2s, some grp4 =>
      .ok (grp1, grp2s,
        (s_stats.drop (s_stats.length - (ncomp + 1))).take
          (s_stats.length - 1 - (s_stats.length - (ncomp + 1))), grp4)
  | .error e, _, _ => .error e
  | .ok _, .error e, _ => .error e
  | .ok _, .ok _, none => .error .runtimeError

/- ------------------------------------------------------------------ -/
/- Round-trip helper lemmas                                           -/
/- ------------------------------------------------------------------ -/

/-- The flat view of a `k` by `d` matrix has `k * d` entries. -/
theorem flatten_length {g : List (List ℝ)} {d : ℕ} (h : ∀ r ∈ g, r.length = d) :
    g.flatten.length = g.length * d := by
  induction g with
  | nil => simp
  | cons r t ih =>
      have hr : r.length = d := h r (List.mem_cons_self r t)
      have ht := ih (fun r2 hm => h r2 (List.mem_cons_of_mem r hm))
      simp [List.length_append, hr, ht, Nat.succ_mul, Nat.add_comm]

/-- Reshaping the flat view of a well-shaped matrix recovers the matrix. -/
theorem reshape_flatten {g : List (List ℝ)} {d : ℕ} (h : ∀ r ∈ g, r.length = d) :
    reshape g.length d g.flatten = g := by
  induction g with
  | nil => rfl
  | cons r t ih =>
      have hr : r.length = d := h r (List.mem_cons_self r t)
      have ht := ih (fun r2 hm => h r2 (List.mem_cons_of_mem r hm))
      show (r ++ t.flatten).take d :: reshape t.length d ((r ++ t.flatten).drop d) = r :: t
      rw [List.take_left' hr, List.drop_left' hr, ht]

/-- A well-shaped matrix round-trips through `view`. -/
theorem view2_flatten {g : List (List ℝ)} {k d : ℕ} (hk : g.length = k)
    (h : ∀ r ∈ g, r.length = d) : view2 k d g.flatten = .ok g := by
  subst hk
  rw [view2, if_pos (flatten_length h), reshape_flatten h]

/-- Round-trip for the Joint Normal-Gamma split: splitting the
concatenation of well-shaped groups recovers the groups. -/
theorem jng_split_roundtrip (ncomp dim : ℕ) (g1 : List ℝ) (g2 g3 : List (List ℝ))
    (g4 : List ℝ) (h1 : g1.length = dim) (h2k : g2.length = ncomp)
    (h2d : ∀ r ∈ g2, r.length = dim) (h3k : g3.length = ncomp)
    (h3d : ∀ r ∈ g3, r.length = dim) :
    JointNormalGammaPrior.split_sufficient_statistics ncomp dim
      (g1 ++ (g2.flatten ++ (g3.flatten ++ g4))) = .ok (g1, g2, g3, g4) := by
  set s := g1 ++ (g2.flatten ++ (g3.flatten ++ g4)) with hs
  have l2 : g2.flatten.length = dim * ncomp := by
    rw [flatten_length h2d, h2k, Nat.mul_comm]
  have l3 : g3.flatten.length = dim * ncomp := by
    rw [flatten_length h3d, h3k, Nat.mul_comm]
  have htake1 : s.take dim = g1 := by rw [hs]; exact List.take_left' h1
  have hdrop1 : s.drop dim = g2.flatten ++ (g3.flatten ++ g4) := by
    rw [hs]; exact List.drop_left' h1
  have hview2 : view2 ncomp dim ((s.drop dim).take (dim * ncomp)) = .ok g2 := by
    rw [hdrop1, List.take_left' l2]
    exact view2_flatten h2k h2d
  have hdrop2 : s.drop (dim + dim * ncomp) = g3.flatten ++ g4 := by
    rw [← List.drop_drop, hdrop1]
    exact List.drop_left' l2
  have hview3 : view2 ncomp dim ((s.drop (dim + dim * ncomp)).take (dim * ncomp)) =
      .ok g3 := by
    rw [hdrop2, List.take_left' l3]
    exact view2_flatten h3k h3d
  have hdrop4 : s.drop (dim + 2 * dim * ncomp) = g4 := by
    have e : dim + 2 * dim * ncomp = (dim + dim * ncomp) + dim * ncomp := by ring
    rw [e, ← List.drop_drop, hdrop2]
    exact List.drop_left' l3
  unfold JointNormalGammaPrior.split_sufficient_statistics
  rw [hview2, hview3, htake1, hdrop4]

/-- Round-trip for the Normal-Wishart split. -/
theorem nw_split_roundtrip (dim : ℕ) (g1 : List (List ℝ)) (g2 : List ℝ) (c3 c4 : ℝ)
    (h1k : g1.length = dim) (h1d : ∀ r ∈ g1, r.length = dim) (h2 : g2.length = dim) :
    NormalWishartPrior.split_sufficient_statistics dim (g1.flatten ++ (g2 ++ [c3, c4])) =
      .ok (g1, g2, c3, c4) := by
  set s := g1.flatten ++ (g2 ++ [c3, c4]) with hs
  have l1 : g1.flatten.length = dim ^ 2 := by
    rw [flatten_length h1d, h1k, pow_two]
  have hlen : s.length = dim ^ 2 + dim + 2 := by
    rw [hs]
    simp [List.length_append, l1, h2]
    ring
  have hview1 : view2 dim dim (s.take (dim ^ 2)) = .ok g1 := by
    rw [hs, List.take_left' l1]
    exact view2_flatten h1k h1d
  have hdroptail : s.drop (s.length - 2) = [c3, c4] := by
    rw [hlen, Nat.add_sub_cancel, hs, ← List.append_assoc]
    exact List.drop_left' (by simp [l1, h2])
  have hmid : (s.drop (dim ^ 2)).take (s.length - 2 - dim ^ 2) = g2 := by
    have hd : s.drop (dim ^ 2) = g2 ++ [c3, c4] := by
      rw [hs]; exact List.drop_left' l1
    have e : s.length - 2 - dim ^ 2 = dim := by
      rw [hlen, Nat.add_sub_cancel, Nat.add_sub_cancel_left]
    rw [hd, e, ← h2]
    exact List.take_left _ _
  unfold NormalWishartPrior.split_sufficient_statistics
  rw [hview1, hdroptail, hmid]

/-- Round-trip for the Joint Normal-Wishart split. -/
theorem jnw_split_roundtrip (ncomp dim : ℕ) (g1 g2 : List (List ℝ)) (g3 : List ℝ)
    (c4 : ℝ) (h1k : g1.length = dim) (h1d : ∀ r ∈ g1, r.length = dim)
    (h2k : g2.length = ncomp) (h2d : ∀ r ∈ g2, r.length = dim)
    (h3 : g3.length = ncomp) :
    JointNormalWishartPrior.split_sufficient_statistics ncomp dim
      (g1.flatten ++ (g2.flatten ++ (g3 ++ [c4]))) = .ok (g1, g2, g3, c4) := by
  set s := g1.flatten ++ (g2.flatten ++ (g3 ++ [c4])) with hs
  have l1 : g1.flatten.length = dim ^ 2 := by
    rw [flatten_length h1d, h1k, pow_two]
  have l2 : g2.flatten.length = ncomp * dim := by
    rw [flatten_length h2d, h2k]
  have hlen : s.length = dim ^ 2 + (ncomp * dim + (ncomp + 1)) := by
    rw [hs]
    simp [List.length_append, l1, l2, h3]
  have hview1 : view2 dim dim (s.take (dim ^ 2)) = .ok g1 := by
    rw [hs, List.take_left' l1]
    exact view2_flatten h1k h1d
  have e2 : s.length - (ncomp + 1) - dim ^ 2 = ncomp * dim := by
    rw [hlen, ← Nat.add_assoc, Nat.add_sub_cancel, Nat.add_sub_cancel_left]
  have hdropmid : s.drop (dim ^ 2) = g2.flatten ++ (g3 ++ [c4]) := by
    rw [hs]; exact List.drop_left' l1
  have hview2 : view2 ncomp dim
      ((s.drop (dim ^ 2)).take (s.length - (ncomp + 1) - dim ^ 2)) = .ok g2 := by
    rw [e2, hdropmid, List.take_left' l2]
    exact view2_flatten h2k h2d
  have estart : s.length - (ncomp + 1) = dim ^ 2 + ncomp * dim := by
    rw [hlen, ← Nat.add_assoc, Nat.add_sub_cancel]
  have etake : s.length - 1 - (s.length - (ncomp + 1)) = ncomp := by
    rw [estart, hlen]
    generalize dim ^ 2 = a
    generalize ncomp * dim = b
    omega
  have hdropstart : s.drop (s.length - (ncomp + 1)) = g3 ++ [c4] := by
    rw [estart, hs, ← List.append_assoc]
    exact List.drop_left' (by simp [l1, l2])
  have hgrp3 : (s.drop (s.length - (ncomp + 1))).take
      (s.length - 1 - (s.length - (ncomp + 1))) = g3 := by
    rw [etake, hdropstart, ← h3]
    exact List.take_left _ _
  have hlast : s.getLast? = some c4 := by
    rw [hs, show g1.flatten ++ (g2.flatten ++ (g3 ++ [c4])) =
      (g1.flatten ++ (g2.flatten ++ g3)) ++ [c4] from by simp [List.append_assoc]]
    exact List.getLast?_concat _
  unfold JointNormalWishartPrior.split_sufficient_statistics
  rw [hview1, hview2, hlast, hgrp3]

/-- C6: for each of the three families that define a nontrivial grouping
(Joint Normal-Gamma, Normal-Wishart, Joint Normal-Wishart), splitting the
concatenation of any tuple of well-shaped group tensors recovers exactly
the original groups, with their original shapes and values. -/
theorem split_concat_roundtrip :
    (∀ (ncomp dim : ℕ) (g1 : List ℝ) (g2 g3 : List (List ℝ)) (g4 : List ℝ),
        g1.length = dim → g2.length = ncomp → (∀ r ∈ g2, r.length = dim) →
        g3.length = ncomp → (∀ r ∈ g3, r.length = dim) →
        JointNormalGammaPrior.split_sufficient_statistics ncomp dim
          (g1 ++ (g2.flatten ++ (g3.flatten ++ g4))) = .ok (g1, g2, g3, g4)) ∧
    (∀ (dim : ℕ) (g1 : List (List ℝ)) (g2 : List ℝ) (c3 c4 : ℝ),
        g1.length = dim → (∀ r ∈ g1, r.length = dim) → g2.length = dim →
        NormalWishartPrior.split_sufficient_statistics dim
          (g1.flatten ++ (g2 ++ [c3, c4])) = .ok (g1, g2, c3, c4)) ∧
    (∀ (ncomp dim : ℕ) (g1 g2 : List (List ℝ)) (g3 : List ℝ) (c4 : ℝ),
        g1.length = dim → (∀ r ∈ g1, r.length = dim) →
        g2.length = ncomp → (∀ r ∈ g2, r.length = dim) → g3.length = ncomp →
        JointNormalWishartPrior.split_sufficient_statistics ncomp dim
          (g1.flatten ++ (g2.flatten ++ (g3 ++ [c4]))) = .ok (g1, g2, g3, c4)) :=
  ⟨fun ncomp dim g1 g2 g3 g4 h1 h2k h2d h3k h3d =>
      jng_split_roundtrip ncomp dim g1 g2 g3 g4 h1 h2k h2d h3k h3d,
    fun dim g1 g2 c3 c4 h1k h1d h2 => nw_split_roundtrip dim g1 g2 c3 c4 h1k h1d h2,
    fun ncomp dim g1 g2 g3 c4 h1k h1d h2k h2d h3 =>
      jnw_split_roundtrip ncomp dim g1 g2 g3 c4 h1k h1d h2k h2d h3⟩

/-- Witness for C6: concrete round trips with `ncomp = 2`, `dim = 2`. -/
theorem split_concat_roundtrip_witness :
    JointNormalGammaPrior.split_sufficient_statistics 2 2
        (([1, 2] : List ℝ) ++ (([[3, 4], [5, 6]] : List (List ℝ)).flatten ++
          (([[7, 8], [9, 10]] : List (List ℝ)).flatten ++ [11, 12]))) =
      .ok ([1, 2], [[3, 4], [5, 6]], [[7, 8], [9, 10]], [11, 12]) ∧
    NormalWishartPrior.split_sufficient_statistics 2
        (([[1, 2], [3, 4]] : List (List ℝ)).flatten ++ ([5, 6] ++ [7, 8])) =
      .ok ([[1, 2], [3, 4]], [5, 6], 7, 8) ∧
    JointNormalWishartPrior.split_sufficient_statistics 2 2
        (([[1, 2], [3, 4]] : List (List ℝ)).flatten ++
          (([[5, 6], [7, 8]] : List (List ℝ)).flatten ++ ([9, 10] ++ [11]))) =
      .ok ([[1, 2], [3, 4]], [[5, 6], [7, 8]], [9, 10], 11) :=
  ⟨split_concat_roundtrip.1 2 2 [1, 2] [[3, 4], [5, 6]] [[7, 8], [9, 10]] [11, 12]
      (by decide) (by decide) (by decide) (by decide) (by decide),
    split_concat_roundtrip.2.1 2 [[1, 2], [3, 4]] [5, 6] 7 8
      (by decide) (by decide) (by decide),
    split_concat_roundtrip.2.2 2 2 [[1, 2], [3, 4]] [[5, 6], [7, 8]] [9, 10] 11
      (by decide) (by decide) (by decide) (by decide) (by decide)⟩

/-- C9, counterexample: the claim says a grouping function fed a vector
whose length does not match the family's expected size fails with a
dimension error.  The Dirichlet family constructed from three
concentrations expects statistics of length 3, yet its
`split_sufficient_statistics` returns a length-2 vector unchanged —
no error of any kind is raised. -/
theorem dirichlet_split_accepts_mismatched_length :
    DirichletPrior.split_sufficient_statistics [0, 0] = [0, 0] ∧
    (DirichletPrior.natural_hparams [2, 3, 5]).length = 3 ∧
    ([0, 0] : List ℝ).length ≠ 3 :=
  ⟨rfl, rfl, by decide⟩

/-- C9, amended: the grouping functions perform no validation against the
family's expected size.  Dirichlet's split is the identity and never
fails; Normal-Gamma's split fails exactly when the length is not a
multiple of 4 (a reshape error, not a check against the recorded
dimension); and the Joint Normal-Gamma split silently accepts an
over-long vector (expected size 4 for `ncomp = dim = 1`), absorbing the
excess into its final group. -/
theorem splits_do_not_validate_length :
    (∀ s_stats : List ℝ, DirichletPrior.split_sufficient_statistics s_stats = s_stats) ∧
    (∀ s_stats : List ℝ,
      (∃ rows, NormalGammaPrior.split_sufficient_statistics s_stats = .ok rows) ↔
        s_stats.length % 4 = 0) ∧
    JointNormalGammaPrior.split_sufficient_statistics 1 1 [0, 0, 0, 0, 0] =
      .ok ([0], [[0]], [[0]], [0, 0]) := by
  refine ⟨fun _ => rfl, ?_, rfl⟩
  intro s_stats
  constructor
  · rintro ⟨rows, h⟩
    by_contra hne
    simp only [NormalGammaPrior.split_sufficient_statistics, if_neg hne] at h
    cases h
  · intro h
    exact ⟨reshape 4 (s_stats.length / 4) s_stats,
      by simp only [NormalGammaPrior.split_sufficient_statistics, if_pos h]⟩

/- ------------------------------------------------------------------ -/
/- Differentiable log-determinant (source lines 20-23)                -/
/- ------------------------------------------------------------------ -/

/-- Source `_logdet(mat)` value (lines 20-23):
`2 * torch.log(torch.diag(torch.potrf(mat))).sum()`.  The library call
`torch.potrf(mat)` returns the Cholesky factor of `mat`: an
upper-triangular matrix `u` with positive diagonal such that
`uᵀ * u = mat`.  The factor is passed here explicitly; the theorem about
this definition carries the factorization contract as hypotheses. -/
noncomputable def logdet_from_chol_factor {n : ℕ} (u : Matrix (Fin n) (Fin n) ℝ) : ℝ :=
  2 * ∑ i, Real.log (u i i)

/-- Source `_logdet` gradient hook (line 22):
`lambda grad: .5 * (grad + grad.t())`, registered on `mat` so that the
raw (triangular) factorization gradient is replaced by the average of
itself and its transpose. -/
noncomputable def logdet_grad_hook {n : ℕ} (grad : Matrix (Fin n) (Fin n) ℝ) :
    Matrix (Fin n) (Fin n) ℝ :=
  ((1:ℝ)/2) • (grad + grad.transpose)

/-- C7: for every symmetric positive-definite matrix, the `_logdet`
formula — twice the sum of the logs of the diagonal of the Cholesky
factor — equals the natural logarithm of the determinant of the matrix.
The factorization contract of `torch.potrf` (upper-triangular factor
`u` with positive diagonal and `uᵀ * u = mat`) appears as hypotheses. -/
theorem logdet_from_chol_factor_eq_log_det {n : ℕ}
    (mat u : Matrix (Fin n) (Fin n) ℝ)
    (hfac : u.transpose * u = mat)
    (htri : ∀ i j : Fin n, j < i → u i j = 0)
    (hpos : ∀ i, 0 < u i i) :
    logdet_from_chol_factor u = Real.log mat.det := by
  have hdetu : u.det = ∏ i, u i i :=
    Matrix.det_of_upperTriangular (fun i j hij => htri i j hij)
  have hdetmat : mat.det = u.det ^ 2 := by
    rw [← hfac, Matrix.det_mul, Matrix.det_transpose, pow_two]
  rw [hdetmat, Real.log_pow, hdetu,
    Real.log_prod _ _ (fun i _ => ne_of_gt (hpos i))]
  rw [logdet_from_chol_factor]
  norm_num

/-- Witness for C7: the concrete factorization
`[[1,1],[1,5]] = [[1,1],[0,2]]ᵀ * [[1,1],[0,2]]`. -/
theorem logdet_from_chol_factor_eq_log_det_witness :
    (!![(1:ℝ), 1; 0, 2]).transpose * !![(1:ℝ), 1; 0, 2] = !![(1:ℝ), 1; 1, 5] ∧
    logdet_from_chol_factor !![(1:ℝ), 1; 0, 2] = Real.log (!![(1:ℝ), 1; 1, 5]).det := by
  have hfac : (!![(1:ℝ), 1; 0, 2]).transpose * !![(1:ℝ), 1; 0, 2] =
      !![(1:ℝ), 1; 1, 5] := by
    have ht : (!![(1:ℝ), 1; 0, 2]).transpose = !![(1:ℝ), 0; 1, 2] := by
      ext i j
      fin_cases i <;> fin_cases j <;> simp [Matrix.transpose_apply]
    rw [ht, Matrix.mul_fin_two]
    norm_num
  refine ⟨hfac, logdet_from_chol_factor_eq_log_det _ _ hfac ?_ ?_⟩
  · intro i j h
    fin_cases i <;> fin_cases j <;> simp_all
  · intro i
    fin_cases i <;> norm_num

/-- C8: for every raw backward-pass gradient flowing into the matrix
argument of `_logdet`, the registered hook replaces it by the average of
the raw gradient and its transpose, and the result is symmetric. -/
theorem logdet_grad_hook_symm {n : ℕ} (grad : Matrix (Fin n) (Fin n) ℝ) :
    (logdet_grad_hook grad).transpose = logdet_grad_hook grad ∧
    logdet_grad_hook grad = ((1:ℝ)/2) • (grad + grad.transpose) := by
  constructor
  · rw [logdet_grad_hook, Matrix.transpose_smul, Matrix.transpose_add,
      Matrix.transpose_transpose, add_comm]
  · rfl

/- ------------------------------------------------------------------ -/
/- Partial family constructors (source lines 553-673)                 -/
/- ------------------------------------------------------------------ -/

/-- Row-major flat view (`Tensor.view(-1)`) of a matrix. -/
def flattenMatrix {m n : ℕ} (a : Matrix (Fin m) (Fin n) ℝ) : List ℝ :=
  (List.ofFn fun i => List.ofFn fun j => a i j).flatten

/-- Source `NormalFullCovariancePrior(mean, cov)` (lines 553-569): computes
`prec = cov⁻¹` and the natural parameters
`cat[-.5 * prec.view(-1), prec @ mean]`, but the `return` statement is
commented out, so the function returns `None`. -/
noncomputable def NormalFullCovariancePrior {n : ℕ} (mean : Fin n → ℝ)
    (cov : Matrix (Fin n) (Fin n) ℝ) : Option PriorObj :=
  let prec := cov⁻¹
  let _natural_params :=
    flattenMatrix ((-(1:ℝ)/2) • prec) ++ List.ofFn (fun i => prec.mulVec mean i)
  none

/-- Source `NormalIsotropicCovariancePrior(mean, variance)` (lines 588-604):
computes `prec = 1 / variance` and `cat[-.5 * prec, prec * mean]`, but the
`return` statement is commented out, so the function returns `None`. -/
noncomputable def NormalIsotropicCovariancePrior (mean : List ℝ) (variance : ℝ) :
    Option PriorObj :=
  let prec := 1 / variance
  let _natural_params := [-(1:ℝ)/2 * prec] ++ mean.map (fun m => prec * m)
  none

/-- Source `MatrixNormalPrior(mean, cov)` (lines 625-647): computes
`prec = cov⁻¹` and `cat[-.5 * prec.view(-1), (prec @ mean).view(-1)]`, but
the `return` statement is commented out, so the function returns `None`. -/
noncomputable def MatrixNormalPrior {q d : ℕ} (mean : Matrix (Fin q) (Fin d) ℝ)
    (cov : Matrix (Fin q) (Fin q) ℝ) : Option PriorObj :=
  let prec := cov⁻¹
  let _natural_params := flattenMatrix ((-(1:ℝ)/2) • prec) ++ flattenMatrix (prec * mean)
  none

/-- Source `GammaPrior(shape, rate)` (lines 660-673): computes the natural
parameters `cat[shape - 1, -rate]`, but the `return` statement is
commented out, so the function returns `None`. -/
def GammaPrior (shape rate : ℝ) : Option PriorObj :=
  let _natural_params := [shape - 1, -rate]
  none

/-- C10: each of the four partial family constructors computes its
natural-parameter tensor but returns `None` rather than a constructed
prior instance, for every input — no object exposing the
`ExpFamilyPrior` interface is ever produced by them. -/
theorem partial_constructors_return_none :
    (∀ (n : ℕ) (mean : Fin n → ℝ) (cov : Matrix (Fin n) (Fin n) ℝ),
        NormalFullCovariancePrior mean cov = none) ∧
    (∀ (mean : List ℝ) (variance : ℝ),
        NormalIsotropicCovariancePrior mean variance = none) ∧
    (∀ (q d : ℕ) (mean : Matrix (Fin q) (Fin d) ℝ) (cov : Matrix (Fin q) (Fin q) ℝ),
        MatrixNormalPrior mean cov = none) ∧
    (∀ shape rate : ℝ, GammaPrior shape rate = none) :=
  ⟨fun _ _ _ => rfl, fun _ _ => rfl, fun _ _ _ _ => rfl, fun _ _ => rfl⟩
